import Mathlib

/-!
Verification of the loan risk-scoring engine of the Loan-Intelligence
repository (`src/ml_model.py`), shallowly embedded over exact rational
arithmetic:

* Python `float` values are modelled as `ℚ`; Python `float('inf')`
  (used only for the explanation ratios) is modelled as `Option ℚ`
  with `none` standing for `+∞`.
* Python `int(x)` applied to a float truncates toward zero; this is
  `ratTrunc`.
* A loosely-typed input record (a dict with `.get(key, 0)` access) is
  modelled as a function `String → Option PyVal`.
-/

/-- A loosely-typed numeric value as held by an input record. -/
inductive PyVal where
  | int (n : ℤ)
  | float (q : ℚ)
deriving DecidableEq

/-- An input record: a mapping from field names to optional values
(`none` = the key is absent from the dict). -/
def Rec : Type := String → Option PyVal

/-- Python `int()` applied to a float: truncation toward zero. -/
def ratTrunc (q : ℚ) : ℤ := if 0 ≤ q then ⌊q⌋ else ⌈q⌉

/-- Python `float(v)` on a numeric value. -/
def toFloat (v : PyVal) : ℚ :=
  match v with
  | .int n => (n : ℚ)
  | .float q => q

/-- Python `int(v)` on a numeric value: ints pass through, floats are
truncated toward zero. -/
def toInt (v : PyVal) : ℤ :=
  match v with
  | .int n => n
  | .float q => ratTrunc q

/-- `application_data.get(key, 0)`: dictionary access with default `0`. -/
def getField (r : Rec) (k : String) : PyVal := (r k).getD (.int 0)

/-- The six scoring inputs after coercion
(`ml_model.py` lines 103–110). -/
structure Features where
  loan_amount : ℚ
  loan_term : ℤ
  annual_income : ℚ
  employment_length : ℤ
  credit_score : ℤ
  monthly_debt : ℚ
deriving DecidableEq

/-- Feature extraction from a raw record (`ml_model.py` lines 103–110):
missing fields default to 0; `loan_amount`, `annual_income`,
`monthly_debt` are coerced with `float()`; `loan_term`,
`employment_length`, `credit_score` with `int()`. -/
def extractFeatures (r : Rec) : Features where
  loan_amount := toFloat (getField r "loan_amount")
  loan_term := toInt (getField r "loan_term")
  annual_income := toFloat (getField r "annual_income")
  employment_length := toInt (getField r "employment_length")
  credit_score := toInt (getField r "credit_score")
  monthly_debt := toFloat (getField r "monthly_debt")

namespace RuleBased

/-- `monthly_income = annual_income / 12` (`ml_model.py` line 64). -/
def monthly_income (f : Features) : ℚ := f.annual_income / 12

/-- `dti_ratio = monthly_debt / monthly_income if monthly_income > 0 else 1`
(`ml_model.py` line 65). -/
def dti_ratio (f : Features) : ℚ :=
  if 0 < monthly_income f then f.monthly_debt / monthly_income f else 1

/-- `loan_to_income = loan_amount / annual_income if annual_income > 0 else 1`
(`ml_model.py` line 68). -/
def loan_to_income (f : Features) : ℚ :=
  if 0 < f.annual_income then f.loan_amount / f.annual_income else 1

/-- `credit_factor = max(0, min(1, (credit_score - 300) / 500))`
(`ml_model.py` lines 74–75). -/
def credit_factor (f : Features) : ℚ :=
  max 0 (min 1 (((f.credit_score : ℚ) - 300) / 500))

/-- `dti_factor = max(0, min(1, 1 - dti_ratio))` (`ml_model.py` line 78). -/
def dti_factor (f : Features) : ℚ :=
  max 0 (min 1 (1 - dti_ratio f))

/-- `lti_factor = max(0, min(1, 1 - loan_to_income))` (`ml_model.py` line 81). -/
def lti_factor (f : Features) : ℚ :=
  max 0 (min 1 (1 - loan_to_income f))

/-- The clamped blended probability of approval
(`ml_model.py` lines 84–85):
`score = max(0.05, min(0.95, 0.5 + 0.2*credit_factor + 0.15*dti_factor + 0.15*lti_factor))`. -/
def probability (f : Features) : ℚ :=
  max 0.05 (min 0.95
    (0.5 + 0.2 * credit_factor f + 0.15 * dti_factor f + 0.15 * lti_factor f))

/-- `RuleBasedModel.predict_proba` for one row (`ml_model.py` line 87):
the pair `[1 - score, score]` of class-0 and class-1 probabilities. -/
def predict_proba (f : Features) : ℚ × ℚ :=
  (1 - probability f, probability f)

end RuleBased

/-- The persisted model: either the rule-based fallback or a learned
classifier, the latter abstracted as its row-wise
`predict_proba` function (pair of class-0 / class-1 probabilities). -/
inductive Model where
  | ruleBased
  | learned (proba : Features → ℚ × ℚ)

/-- Dispatch `model.predict_proba` on one feature row. -/
def modelProba (m : Model) (f : Features) : ℚ × ℚ :=
  match m with
  | .ruleBased => RuleBased.predict_proba f
  | .learned g => g f

/-- `predict_approval` (`ml_model.py` lines 93–118) with the loaded model
made explicit: extract features, take the class-1 probability
(`predict_proba(features)[0][1]`), and compute `score = int(prob * 100)`. -/
def predict_approval (m : Model) (r : Rec) : ℤ :=
  ratTrunc ((modelProba m (extractFeatures r)).2 * 100)

/-- Build a record from an association list of fields. -/
def mkRec (l : List (String × PyVal)) : Rec := fun k => l.lookup k

/-- The concrete application of the spec scenario. -/
def scenarioRec : Rec := mkRec
  [("loan_amount", .int 10000), ("loan_term", .int 3),
   ("annual_income", .int 50000), ("employment_length", .int 1),
   ("credit_score", .int 700), ("monthly_debt", .int 1000)]

/-- `x <= c` in Python where `x` may be `float('inf')` (`none` here):
infinity is ≤ no finite threshold. -/
def lteInf (x : Option ℚ) (c : ℚ) : Bool :=
  match x with
  | some v => v ≤ c
  | none => false

/-- The credit-score ladder of `get_model_explanation`
(`ml_model.py` lines 139–148). -/
def creditExplanation (credit_score : ℤ) : String :=
  if 750 ≤ credit_score then "Your excellent credit score is favorable for approval."
  else if 700 ≤ credit_score then "Your good credit score is a positive factor."
  else if 650 ≤ credit_score then "Your fair credit score may impact your approval odds."
  else if 600 ≤ credit_score then "Your below-average credit score is a concern."
  else "Your credit score is too low for most standard loans."

/-- The debt-to-income ladder (`ml_model.py` lines 151–158). -/
def dtiExplanation (dti_ratio : Option ℚ) : String :=
  if lteInf dti_ratio 0.2 then "Your very low debt-to-income ratio strongly favors approval."
  else if lteInf dti_ratio 0.36 then "Your debt-to-income ratio is within acceptable limits."
  else if lteInf dti_ratio 0.43 then "Your debt-to-income ratio is slightly elevated."
  else "Your high debt-to-income ratio may limit approval chances."

/-- The payment-to-income ladder (`ml_model.py` lines 161–166). -/
def ptiExplanation (payment_to_income : Option ℚ) : String :=
  if lteInf payment_to_income 0.1 then
    "The proposed loan payment is easily affordable relative to your income."
  else if lteInf payment_to_income 0.28 then
    "The proposed loan payment is reasonably affordable relative to your income."
  else "The proposed loan payment is high relative to your income."

/-- The loan-amount-to-income ladder (`ml_model.py` lines 169–174):
note it compares `loan_amount` against multiples of `annual_income`
rather than forming a ratio. -/
def ltiExplanation (loan_amount annual_income : ℚ) : String :=
  if loan_amount ≤ annual_income * 0.5 then
    "Your requested loan amount is conservative relative to your annual income."
  else if loan_amount ≤ annual_income * 2 then
    "Your requested loan amount is reasonable relative to your annual income."
  else "Your requested loan amount is high relative to your annual income."

/-- The body of `get_model_explanation` after coercion
(`ml_model.py` lines 129–176): derived metrics (with `none` standing
for the Python `float('inf')` placed where a divisor is non-positive)
feeding four threshold ladders in a fixed order. -/
def explanationList (loan_amount : ℚ) (loan_term : ℤ) (annual_income : ℚ)
    (credit_score : ℤ) (monthly_debt : ℚ) : List String :=
  let monthly_income : ℚ := annual_income / 12
  let dti_ratio : Option ℚ :=
    if 0 < monthly_income then some (monthly_debt / monthly_income) else none
  let monthly_payment : Option ℚ :=
    if 0 < loan_term then some (loan_amount / (loan_term : ℚ)) else none
  let payment_to_income : Option ℚ :=
    if 0 < monthly_income then monthly_payment.map (fun p => p / monthly_income) else none
  [creditExplanation credit_score,
   dtiExplanation dti_ratio,
   ptiExplanation payment_to_income,
   ltiExplanation loan_amount annual_income]

/-- `get_model_explanation` (`ml_model.py` lines 120–176): coerce the
five fields it reads (it does not read `employment_length`), then build
the four explanations. -/
def get_model_explanation (r : Rec) : List String :=
  explanationList
    (toFloat (getField r "loan_amount"))
    (toInt (getField r "loan_term"))
    (toFloat (getField r "annual_income"))
    (toInt (getField r "credit_score"))
    (toFloat (getField r "monthly_debt"))

/-- A historical application row of `loan_applications.csv`:
its decision status plus the six feature columns. -/
structure AppRecord where
  status : String
  features : Features
deriving DecidableEq

/-- `status.isin(['approved', 'rejected'])` (`ml_model.py` line 24). -/
def isDecided (r : AppRecord) : Bool :=
  r.status == "approved" || r.status == "rejected"

/-- The outcome of `train_model_if_needed`: keep an existing persisted
model, persist a fitted classifier (with its training matrix `X` and
label vector `y`), or persist the rule-based model. -/
inductive TrainResult where
  | keepExisting
  | savedLearned (X : List Features) (y : List ℤ)
  | savedRule
deriving DecidableEq

/-- `train_model_if_needed` (`ml_model.py` lines 14–47) with the
filesystem state explicit: `modelExists` is whether
`loan_approval_model.pkl` exists, `csv` is the parsed
`loan_applications.csv` (`none` if the file is absent). With ≥ 10
decided records a classifier is fit on the six raw feature columns with
label `status == 'approved'`; otherwise the rule-based model is saved. -/
def train_model_if_needed (modelExists : Bool) (csv : Option (List AppRecord)) :
    TrainResult :=
  if modelExists then .keepExisting
  else
    match csv with
    | some apps =>
      let decided := apps.filter isDecided
      if 10 ≤ decided.length then
        .savedLearned (decided.map (·.features))
          (decided.map fun a => if a.status == "approved" then 1 else 0)
      else .savedRule
    | none => .savedRule

/-- A record whose credit_score field holds the float 699.9. -/
def truncRec : Rec := mkRec [("credit_score", PyVal.float (6999/10))]

/-- A sample feature row for concrete training data. -/
def sampleFeat : Features := ⟨10000, 3, 50000, 1, 700, 1000⟩

/-- Eleven historical applications: 6 approved, 4 rejected, 1 pending —
so exactly 10 carry a terminal decision. -/
def sampleApps : List AppRecord :=
  [⟨"approved", sampleFeat⟩, ⟨"approved", sampleFeat⟩, ⟨"approved", sampleFeat⟩,
   ⟨"approved", sampleFeat⟩, ⟨"approved", sampleFeat⟩, ⟨"approved", sampleFeat⟩,
   ⟨"rejected", sampleFeat⟩, ⟨"rejected", sampleFeat⟩, ⟨"rejected", sampleFeat⟩,
   ⟨"rejected", sampleFeat⟩, ⟨"pending", sampleFeat⟩]

/-- The five credit-score band messages, in ladder order. -/
def creditMessages : List String :=
  ["Your excellent credit score is favorable for approval.",
   "Your good credit score is a positive factor.",
   "Your fair credit score may impact your approval odds.",
   "Your below-average credit score is a concern.",
   "Your credit score is too low for most standard loans."]

/-- The four debt-to-income band messages, in ladder order. -/
def dtiMessages : List String :=
  ["Your very low debt-to-income ratio strongly favors approval.",
   "Your debt-to-income ratio is within acceptable limits.",
   "Your debt-to-income ratio is slightly elevated.",
   "Your high debt-to-income ratio may limit approval chances."]

/-- The three payment-to-income band messages, in ladder order. -/
def ptiMessages : List String :=
  ["The proposed loan payment is easily affordable relative to your income.",
   "The proposed loan payment is reasonably affordable relative to your income.",
   "The proposed loan payment is high relative to your income."]

/-- The three loan-amount-to-income band messages, in ladder order. -/
def ltiMessages : List String :=
  ["Your requested loan amount is conservative relative to your annual income.",
   "Your requested loan amount is reasonable relative to your annual income.",
   "Your requested loan amount is high relative to your annual income."]

lemma ratTrunc_eq_floor {q : ℚ} (h : 0 ≤ q) : ratTrunc q = ⌊q⌋ := by
  simp [ratTrunc, h]

lemma ratTrunc_mono {a b : ℚ} (ha : 0 ≤ a) (hab : a ≤ b) :
    ratTrunc a ≤ ratTrunc b := by
  rw [ratTrunc_eq_floor ha, ratTrunc_eq_floor (ha.trans hab)]
  exact Int.floor_mono hab

lemma prob_lb (f : Features) : (0.05 : ℚ) ≤ RuleBased.probability f := by
  unfold RuleBased.probability
  exact le_max_left _ _

lemma prob_ub (f : Features) : RuleBased.probability f ≤ 0.95 := by
  unfold RuleBased.probability
  exact max_le (by norm_num) (min_le_left _ _)

lemma rule_score_bounds (f : Features) :
    (5 : ℤ) ≤ ratTrunc (RuleBased.probability f * 100) ∧
    ratTrunc (RuleBased.probability f * 100) ≤ 95 := by
  have h1 := prob_lb f
  have h2 := prob_ub f
  have h0 : (0 : ℚ) ≤ RuleBased.probability f * 100 := by linarith
  rw [ratTrunc_eq_floor h0]
  constructor
  · rw [Int.le_floor]
    push_cast
    linarith
  · have hle : RuleBased.probability f * 100 ≤ (95 : ℚ) := by linarith
    calc ⌊RuleBased.probability f * 100⌋ ≤ ⌊(95 : ℚ)⌋ := Int.floor_mono hle
      _ = 95 := by norm_num

/-- C1: for the record {loan_amount=10000, loan_term=3,
annual_income=50000, employment_length=1, credit_score=700,
monthly_debt=1000}, the rule-based path computes dti_ratio = 0.24,
loan_to_income = 0.2, credit_factor = 0.8, dti_factor = 0.76,
lti_factor = 0.8, probability = 0.894, and `predict_approval`
returns 89 = ⌊probability × 100⌋ (truncation, not rounding). -/
theorem c1_concrete_scenario :
    RuleBased.dti_ratio (extractFeatures scenarioRec) = 0.24 ∧
    RuleBased.loan_to_income (extractFeatures scenarioRec) = 0.2 ∧
    RuleBased.credit_factor (extractFeatures scenarioRec) = 0.8 ∧
    RuleBased.dti_factor (extractFeatures scenarioRec) = 0.76 ∧
    RuleBased.lti_factor (extractFeatures scenarioRec) = 0.8 ∧
    RuleBased.probability (extractFeatures scenarioRec) = 0.894 ∧
    predict_approval Model.ruleBased scenarioRec = 89 ∧
    predict_approval Model.ruleBased scenarioRec =
      ⌊RuleBased.probability (extractFeatures scenarioRec) * 100⌋ := by
  have hf : extractFeatures scenarioRec = ⟨10000, 3, 50000, 1, 700, 1000⟩ := rfl
  simp only [predict_approval, modelProba, RuleBased.predict_proba, hf]
  norm_num [RuleBased.probability, RuleBased.credit_factor, RuleBased.dti_factor,
    RuleBased.lti_factor, RuleBased.dti_ratio, RuleBased.loan_to_income,
    RuleBased.monthly_income, ratTrunc, max_def, min_def]

/-- C2: the rule-based probability is clamped into [0.05, 0.95] before
conversion, so for every input record the rule-based score is an integer
in [5, 95], and in particular in [0, 100]. -/
theorem c2_score_range :
    (∀ f : Features,
      0.05 ≤ RuleBased.probability f ∧ RuleBased.probability f ≤ 0.95) ∧
    (∀ r : Rec,
      5 ≤ predict_approval Model.ruleBased r ∧
      predict_approval Model.ruleBased r ≤ 95 ∧
      0 ≤ predict_approval Model.ruleBased r ∧
      predict_approval Model.ruleBased r ≤ 100) := by
  refine ⟨fun f => ⟨prob_lb f, prob_ub f⟩, fun r => ?_⟩
  have h := rule_score_bounds (extractFeatures r)
  have he : predict_approval Model.ruleBased r =
      ratTrunc (RuleBased.probability (extractFeatures r) * 100) := rfl
  rw [he]
  exact ⟨h.1, h.2, by omega, by omega⟩

/-- C8: the rule-based scorer is monotonic non-decreasing in
credit_score — raising credit_score with all other fields fixed cannot
lower the class-1 probability nor the resulting score. -/
theorem c8_monotone_credit_score :
    ∀ (f : Features) (c : ℤ), f.credit_score ≤ c →
      (RuleBased.predict_proba f).2 ≤
        (RuleBased.predict_proba { f with credit_score := c }).2 ∧
      ratTrunc ((RuleBased.predict_proba f).2 * 100) ≤
        ratTrunc ((RuleBased.predict_proba { f with credit_score := c }).2 * 100) := by
  intro f c h
  have hcf : RuleBased.credit_factor f ≤
      RuleBased.credit_factor { f with credit_score := c } := by
    unfold RuleBased.credit_factor
    have hc : (f.credit_score : ℚ) ≤ ((c : ℚ)) := by exact_mod_cast h
    have hdiv : ((f.credit_score : ℚ) - 300) / 500 ≤ ((c : ℚ) - 300) / 500 := by
      linarith
    exact max_le_max le_rfl (min_le_min le_rfl hdiv)
  have hprob : RuleBased.probability f ≤
      RuleBased.probability { f with credit_score := c } := by
    unfold RuleBased.probability
    have hd : RuleBased.dti_factor { f with credit_score := c } =
        RuleBased.dti_factor f := rfl
    have hl : RuleBased.lti_factor { f with credit_score := c } =
        RuleBased.lti_factor f := rfl
    rw [hd, hl]
    exact max_le_max le_rfl (min_le_min le_rfl (by linarith))
  have hp1 : (RuleBased.predict_proba f).2 = RuleBased.probability f := rfl
  have hp2 : (RuleBased.predict_proba { f with credit_score := c }).2 =
      RuleBased.probability { f with credit_score := c } := rfl
  rw [hp1, hp2]
  refine ⟨hprob, ratTrunc_mono ?_ ?_⟩
  · have := prob_lb f
    linarith
  · have := hprob
    linarith

/-- Witness for C8 at a concrete pair of inputs (credit 600 vs 700). -/
theorem c8_witness :
    (RuleBased.predict_proba ⟨10000, 3, 50000, 1, 600, 1000⟩).2 ≤
      (RuleBased.predict_proba
        { (⟨10000, 3, 50000, 1, 600, 1000⟩ : Features) with credit_score := 700 }).2 ∧
    ratTrunc ((RuleBased.predict_proba ⟨10000, 3, 50000, 1, 600, 1000⟩).2 * 100) ≤
      ratTrunc ((RuleBased.predict_proba
        { (⟨10000, 3, 50000, 1, 600, 1000⟩ : Features) with credit_score := 700 }).2 * 100) :=
  c8_monotone_credit_score ⟨10000, 3, 50000, 1, 600, 1000⟩ 700 (by norm_num)

/-- C9: the rule-based class probabilities depend only on loan_amount,
annual_income, credit_score and monthly_debt — two feature rows that
agree on those four fields but differ arbitrarily in loan_term and
employment_length get the same probabilities and the same score. -/
theorem c9_ignores_term_and_employment :
    ∀ (f g : Features),
      f.loan_amount = g.loan_amount → f.annual_income = g.annual_income →
      f.credit_score = g.credit_score → f.monthly_debt = g.monthly_debt →
      RuleBased.predict_proba f = RuleBased.predict_proba g ∧
      ratTrunc ((RuleBased.predict_proba f).2 * 100) =
        ratTrunc ((RuleBased.predict_proba g).2 * 100) := by
  intro f g h1 h2 h3 h4
  have hp : RuleBased.predict_proba f = RuleBased.predict_proba g := by
    unfold RuleBased.predict_proba RuleBased.probability RuleBased.credit_factor
      RuleBased.dti_factor RuleBased.lti_factor RuleBased.dti_ratio
      RuleBased.loan_to_income RuleBased.monthly_income
    rw [h1, h2, h3, h4]
  exact ⟨hp, by rw [hp]⟩

/-- Witness for C9: loan_term 3 vs 30 and employment_length 1 vs 9
leave the rule-based probabilities and score unchanged. -/
theorem c9_witness :
    RuleBased.predict_proba ⟨10000, 3, 50000, 1, 700, 1000⟩ =
      RuleBased.predict_proba ⟨10000, 30, 50000, 9, 700, 1000⟩ ∧
    ratTrunc ((RuleBased.predict_proba ⟨10000, 3, 50000, 1, 700, 1000⟩).2 * 100) =
      ratTrunc ((RuleBased.predict_proba ⟨10000, 30, 50000, 9, 700, 1000⟩).2 * 100) :=
  c9_ignores_term_and_employment _ _ rfl rfl rfl rfl

lemma lteInf_some (v c : ℚ) : lteInf (some v) c = decide (v ≤ c) := rfl

lemma creditExplanation_shape (cs : ℤ) :
    creditExplanation cs ∈ creditMessages ∧ creditExplanation cs ≠ "" := by
  unfold creditExplanation
  split_ifs <;> exact ⟨by decide, by decide⟩

lemma dtiExplanation_shape (x : Option ℚ) :
    dtiExplanation x ∈ dtiMessages ∧ dtiExplanation x ≠ "" := by
  unfold dtiExplanation
  split_ifs <;> exact ⟨by decide, by decide⟩

lemma ptiExplanation_shape (x : Option ℚ) :
    ptiExplanation x ∈ ptiMessages ∧ ptiExplanation x ≠ "" := by
  unfold ptiExplanation
  split_ifs <;> exact ⟨by decide, by decide⟩

lemma ltiExplanation_shape (la ai : ℚ) :
    ltiExplanation la ai ∈ ltiMessages ∧ ltiExplanation la ai ≠ "" := by
  unfold ltiExplanation
  split_ifs <;> exact ⟨by decide, by decide⟩

lemma explanationList_shape (la : ℚ) (lt : ℤ) (ai : ℚ) (cs : ℤ) (md : ℚ) :
    (explanationList la lt ai cs md).length = 4 ∧
    (explanationList la lt ai cs md)[0]! ∈ creditMessages ∧
    (explanationList la lt ai cs md)[1]! ∈ dtiMessages ∧
    (explanationList la lt ai cs md)[2]! ∈ ptiMessages ∧
    (explanationList la lt ai cs md)[3]! ∈ ltiMessages ∧
    (explanationList la lt ai cs md)[0]! ≠ "" ∧
    (explanationList la lt ai cs md)[1]! ≠ "" ∧
    (explanationList la lt ai cs md)[2]! ≠ "" ∧
    (explanationList la lt ai cs md)[3]! ≠ "" := by
  refine ⟨rfl, ?_, ?_, ?_, ?_, ?_, ?_, ?_, ?_⟩
  · exact (creditExplanation_shape cs).1
  · exact (dtiExplanation_shape _).1
  · exact (ptiExplanation_shape _).1
  · exact (ltiExplanation_shape la ai).1
  · exact (creditExplanation_shape cs).2
  · exact (dtiExplanation_shape _).2
  · exact (ptiExplanation_shape _).2
  · exact (ltiExplanation_shape la ai).2

/-- C5: for every input record — including those whose derived
debt-to-income or payment-to-income ratio is infinite because
monthly_income ≤ 0 or loan_term ≤ 0 — `get_model_explanation` returns
exactly 4 non-empty strings, one per dimension in the fixed order
credit score, debt-to-income, payment-to-income, loan-to-income. -/
theorem c5_explanation_contract :
    ∀ r : Rec,
      (get_model_explanation r).length = 4 ∧
      (get_model_explanation r)[0]! ∈ creditMessages ∧
      (get_model_explanation r)[1]! ∈ dtiMessages ∧
      (get_model_explanation r)[2]! ∈ ptiMessages ∧
      (get_model_explanation r)[3]! ∈ ltiMessages ∧
      (get_model_explanation r)[0]! ≠ "" ∧
      (get_model_explanation r)[1]! ≠ "" ∧
      (get_model_explanation r)[2]! ≠ "" ∧
      (get_model_explanation r)[3]! ≠ "" := by
  intro r
  exact explanationList_shape _ _ _ _ _

/-- C7: the explanation ladders use inclusive upper bounds with the
first matching band winning: credit_score 750 is "excellent" while 749
is "good", and dti_ratio exactly 0.20 is "very low" while any value in
(0.20, 0.36] is "within acceptable limits". -/
theorem c7_threshold_boundaries :
    creditExplanation 750 = "Your excellent credit score is favorable for approval." ∧
    creditExplanation 749 = "Your good credit score is a positive factor." ∧
    dtiExplanation (some 0.2) = "Your very low debt-to-income ratio strongly favors approval." ∧
    ∀ q : ℚ, 0.2 < q → q ≤ 0.36 →
      dtiExplanation (some q) = "Your debt-to-income ratio is within acceptable limits." := by
  refine ⟨by decide, by decide, ?_, ?_⟩
  · unfold dtiExplanation
    rw [if_pos]
    rw [lteInf_some]
    simp only [decide_eq_true_eq]
    norm_num
  · intro q h1 h2
    unfold dtiExplanation
    split_ifs with ha hb
    · rw [lteInf_some, decide_eq_true_eq] at ha
      linarith
    · rfl
    · rw [lteInf_some, decide_eq_true_eq] at hb
      exact absurd (by linarith : q ≤ (0.36 : ℚ)) hb
    · rw [lteInf_some, decide_eq_true_eq] at hb
      exact absurd (by linarith : q ≤ (0.36 : ℚ)) hb

/-- Witness for C7 at dti_ratio = 0.3, inside the (0.20, 0.36] band. -/
theorem c7_witness :
    dtiExplanation (some (3/10)) = "Your debt-to-income ratio is within acceptable limits." :=
  c7_threshold_boundaries.2.2.2 (3/10) (by norm_num) (by norm_num)

/-- C10: with annual_income = 0 the fourth explanation is the
"conservative" band exactly when loan_amount ≤ 0, because the band test
multiplies annual_income by the threshold instead of dividing; any
positive loan_amount lands in the "high" band. -/
theorem c10_zero_income_band :
    ∀ (la : ℚ) (lt : ℤ) (cs : ℤ) (md : ℚ),
      ((explanationList la lt 0 cs md)[3]! =
        "Your requested loan amount is conservative relative to your annual income." ↔
        la ≤ 0) ∧
      (la = 0 → (explanationList la lt 0 cs md)[3]! =
        "Your requested loan amount is conservative relative to your annual income.") ∧
      (0 < la → (explanationList la lt 0 cs md)[3]! =
        "Your requested loan amount is high relative to your annual income.") := by
  intro la lt cs md
  have h3 : (explanationList la lt 0 cs md)[3]! = ltiExplanation la 0 := rfl
  rw [h3]
  unfold ltiExplanation
  rw [show (0 : ℚ) * 0.5 = 0 by norm_num, show (0 : ℚ) * 2 = 0 by norm_num]
  split_ifs with h1
  · exact ⟨iff_of_true rfl h1, fun _ => rfl, fun hl => absurd h1 (by linarith)⟩
  · exact ⟨iff_of_false (by decide) h1, fun h0 => absurd (le_of_eq h0) h1,
      fun _ => rfl⟩

/-- Witness for C10: zero income and loan_amount = 5 lands in the
"high" band. -/
theorem c10_witness :
    (explanationList 5 3 0 700 0)[3]! =
      "Your requested loan amount is high relative to your annual income." :=
  (c10_zero_income_band 5 3 700 0).2.2 (by norm_num)

/-- C6: with no persisted model, the trainer saves the rule-based model
exactly when fewer than 10 decided (approved/rejected) records exist —
in particular with exactly 9 decided records — and with exactly 10
decided records it fits and saves a classifier on the six raw feature
columns with label `status == 'approved'`; with no CSV at all the
rule-based model is saved. -/
theorem c6_training_threshold :
    (∀ apps : List AppRecord,
      (train_model_if_needed false (some apps) = .savedRule ↔
        (apps.filter isDecided).length < 10) ∧
      ((apps.filter isDecided).length = 9 →
        train_model_if_needed false (some apps) = .savedRule) ∧
      ((apps.filter isDecided).length = 10 →
        train_model_if_needed false (some apps) =
          .savedLearned ((apps.filter isDecided).map (·.features))
            ((apps.filter isDecided).map fun a =>
              if a.status == "approved" then 1 else 0))) ∧
    train_model_if_needed false none = .savedRule := by
  refine ⟨fun apps => ?_, rfl⟩
  have h : train_model_if_needed false (some apps) =
      (if 10 ≤ (apps.filter isDecided).length then
        TrainResult.savedLearned ((apps.filter isDecided).map (·.features))
          ((apps.filter isDecided).map fun a =>
            if a.status == "approved" then 1 else 0)
      else .savedRule) := rfl
  rw [h]
  split_ifs with hge
  · exact ⟨iff_of_false (by simp) (by omega), fun h9 => by omega, fun _ => rfl⟩
  · exact ⟨iff_of_true rfl (by omega), fun _ => rfl, fun h10 => by omega⟩

/-- Witness for C6: on the 11 sample applications (10 decided), the
trainer saves a classifier fit on the 10 decided rows with labels
1 for approved and 0 for rejected. -/
theorem c6_witness :
    train_model_if_needed false (some sampleApps) =
      TrainResult.savedLearned
        [sampleFeat, sampleFeat, sampleFeat, sampleFeat, sampleFeat,
         sampleFeat, sampleFeat, sampleFeat, sampleFeat, sampleFeat]
        [1, 1, 1, 1, 1, 1, 0, 0, 0, 0] :=
  (c6_training_threshold.1 sampleApps).2.2 (by decide)

/-- C3 counterexample: a learned classifier whose class-1 probability is
0.896 yields score 89 through `predict_approval`, while
round(0.896 × 100) = 90 — the learned path truncates rather than
rounds. -/
theorem c3_counterexample :
    predict_approval (Model.learned fun _ => ((13 : ℚ)/125, (112 : ℚ)/125)) scenarioRec = 89 ∧
    round (((112 : ℚ)/125) * 100) = 90 ∧
    (89 : ℤ) ≠ 90 := by
  refine ⟨?_, by rw [round_eq]; norm_num, by decide⟩
  have h : predict_approval (Model.learned fun _ => ((13 : ℚ)/125, (112 : ℚ)/125)) scenarioRec
      = ratTrunc ((112 : ℚ)/125 * 100) := rfl
  rw [h, ratTrunc_eq_floor (by norm_num)]
  norm_num

/-- C3 amended: when the active strategy is the learned classifier, the
score equals the integer truncation of probability × 100 (the floor,
for the nonnegative probabilities a classifier emits), exactly as on
the rule-based path — not the rounding. -/
theorem c3_learned_score_truncates (g : Features → ℚ × ℚ) (r : Rec)
    (h : 0 ≤ (g (extractFeatures r)).2) :
    predict_approval (Model.learned g) r = ⌊(g (extractFeatures r)).2 * 100⌋ := by
  have he : predict_approval (Model.learned g) r =
      ratTrunc ((g (extractFeatures r)).2 * 100) := rfl
  rw [he, ratTrunc_eq_floor (mul_nonneg h (by norm_num))]

/-- Witness for the amended C3 at probability 1/2. -/
theorem c3_amended_witness :
    predict_approval (Model.learned fun _ => ((1 : ℚ)/2, (1 : ℚ)/2)) scenarioRec =
      ⌊((1 : ℚ)/2) * 100⌋ :=
  c3_learned_score_truncates (fun _ => ((1 : ℚ)/2, (1 : ℚ)/2)) scenarioRec (by norm_num)

/-- C4 counterexample: extraction truncates rather than rounds — a
credit_score of 699.9 is coerced to 699, while rounding would give
700. -/
theorem c4_counterexample :
    (extractFeatures truncRec).credit_score = 699 ∧
    round ((6999 : ℚ)/10) = 700 ∧
    (699 : ℤ) ≠ 700 := by
  refine ⟨?_, by rw [round_eq]; norm_num, by decide⟩
  have h : (extractFeatures truncRec).credit_score = ratTrunc (6999/10) := rfl
  rw [h, ratTrunc_eq_floor (by norm_num)]
  norm_num

/-- C4 amended: extraction reads the six named fields with missing
fields defaulting to 0, truncates loan_term, employment_length and
credit_score toward zero (Python `int()`), and passes loan_amount,
annual_income and monthly_debt through as floats. -/
theorem c4_extraction_coercion :
    (∀ (r : Rec) (q : ℚ),
      (r "loan_term" = some (.float q) → (extractFeatures r).loan_term = ratTrunc q) ∧
      (r "employment_length" = some (.float q) →
        (extractFeatures r).employment_length = ratTrunc q) ∧
      (r "credit_score" = some (.float q) → (extractFeatures r).credit_score = ratTrunc q) ∧
      (r "loan_amount" = some (.float q) → (extractFeatures r).loan_amount = q) ∧
      (r "annual_income" = some (.float q) → (extractFeatures r).annual_income = q) ∧
      (r "monthly_debt" = some (.float q) → (extractFeatures r).monthly_debt = q)) ∧
    (∀ q : ℚ, 0 ≤ q → ratTrunc q = ⌊q⌋) ∧
    (∀ q : ℚ, q < 0 → ratTrunc q = ⌈q⌉) ∧
    extractFeatures (mkRec []) = ⟨0, 0, 0, 0, 0, 0⟩ := by
  refine ⟨fun r q => ?_, fun q h => ratTrunc_eq_floor h, fun q h => ?_, rfl⟩
  · refine ⟨fun h => ?_, fun h => ?_, fun h => ?_, fun h => ?_, fun h => ?_, fun h => ?_⟩ <;>
      simp [extractFeatures, getField, toInt, toFloat, h]
  · rw [ratTrunc, if_neg (not_le.mpr h)]

/-- Witness for the amended C4: the float 699.9 in credit_score is
truncated. -/
theorem c4_amended_witness :
    (extractFeatures truncRec).credit_score = ratTrunc (6999/10) :=
  (c4_extraction_coercion.1 truncRec (6999/10)).2.2.1 rfl
